import Mathlib

/-!
Verification development for a retrieval-augmented chatbot
(document chunking, FAISS-backed vector index, conversation engine).

The Python sources are embedded shallowly:
* `config/config.py` default constants become Lean constants;
* `src/chatbot.py` becomes pure state-passing functions over `ChatbotState`
  (conversation history and an abstract append-only log), with the external
  generation provider's behaviour supplied as explicit parameters
  (the answer, the emitted stream fragments, and failure flags);
* `src/vector_store.py` becomes functions over `LangChainVectorStore`,
  with the FAISS library calls (which are not part of this repository)
  modelled from the specification;
* `src/data_loader.py` becomes constructor/validation functions, with the
  library text splitter modelled from the specification.
-/

/-! ### Configuration defaults (config/config.py) -/

/-- Default of `MAX_CONVERSATION_HISTORY` in `config/config.py` (line 33). -/
def MAX_CONVERSATION_HISTORY : Nat := 5

/-- Default of `TOP_K_RESULTS` in `config/config.py` (line 28). -/
def TOP_K_RESULTS : Nat := 3

/-- Default of `CHUNK_SIZE` in `config/config.py` (line 29). -/
def CHUNK_SIZE : Int := 500

/-- Default of `CHUNK_OVERLAP` in `config/config.py` (line 30). -/
def CHUNK_OVERLAP : Int := 50

/-! ### Documents (langchain_core.documents.Document, as used by the sources) -/

/-- A langchain `Document` as the sources use it: `page_content` text plus
metadata (abstracted to one string, e.g. the source path). -/
structure Document where
  page_content : String
  metadata : String
deriving Repr, DecidableEq

/-! ### Conversation engine state (src/chatbot.py) -/

/-- One record written by `LangChainChatbot._log_conversation`
(src/chatbot.py lines 242-254): question, answer, number of sources, and
per-source truncated content (first 200 characters) with metadata.
The timestamp is abstracted away. -/
structure LogRecord where
  question : String
  answer : String
  num_sources : Nat
  sources : List (String × String)
deriving Repr, DecidableEq

/-- Build the log record of `_log_conversation` from question, answer and
source documents (src/chatbot.py lines 242-254). -/
def mkLogRecord (question answer : String) (docs : List Document) : LogRecord :=
  { question := question
    answer := answer
    num_sources := docs.length
    sources := docs.map (fun d => (d.page_content.take 200, d.metadata)) }

/-- Mutable state of a `LangChainChatbot` instance: `self.chat_history`
(a list of (question, answer) pairs, src/chatbot.py line 55) together with
the abstract append-only conversation log written by `_log_conversation`. -/
structure ChatbotState where
  chat_history : List (String × String)
  log : List LogRecord
deriving Repr, DecidableEq

/-- Python slice `l[-cap:]`: the last `cap` elements, except that `l[-0:]`
is the whole list. -/
def pySliceLast (cap : Nat) (l : List (String × String)) : List (String × String) :=
  if cap = 0 then l else l.drop (l.length - cap)

/-- History update shared by `chat` (src/chatbot.py lines 146-151) and
`chat_stream` (lines 215-220): append the completed turn, then, if the
length exceeds `cap`, keep only `self.chat_history[-cap:]`. -/
def pushTurn (cap : Nat) (h : List (String × String)) (t : String × String) :
    List (String × String) :=
  if cap < (h ++ [t]).length then pySliceLast cap (h ++ [t]) else h ++ [t]

/-- The method `LangChainChatbot.chat` (src/chatbot.py lines 121-161).
`hasChain` is whether `self.chain` is set; `provider` is the outcome of
`self.chain.invoke` (answer and source documents) resp. `self.llm.invoke`
(answer, sources ignored); `logFails` is whether the filesystem write in
`_log_conversation` raises. Returns the Python return value (or the
propagated exception) together with the state after the call. -/
def chat (cap : Nat) (hasChain enable_logging : Bool) (st : ChatbotState)
    (question : String) (provider : Except Unit (String × List Document))
    (logFails : Bool) : Except Unit (String × List Document) × ChatbotState :=
  if hasChain then
    match provider with
    | .error e => (.error e, st)
    | .ok (answer, docs) =>
      let hist := pushTurn cap st.chat_history (question, answer)
      if enable_logging then
        if logFails then (.error (), { st with chat_history := hist })
        else (.ok (answer, docs),
              { chat_history := hist,
                log := st.log ++ [mkLogRecord question answer docs] })
      else (.ok (answer, docs), { st with chat_history := hist })
  else
    match provider with
    | .error e => (.error e, st)
    | .ok (answer, _) =>
      if enable_logging then
        if logFails then (.error (), st)
        else (.ok (answer, []),
              { st with log := st.log ++ [mkLogRecord question answer []] })
      else (.ok (answer, []), st)

/-- How a run of the generator `chat_stream` ends: the generation provider
raised mid-stream, or the logging write raised, or the run completed. -/
inductive StreamErr where
  | genFailure
  | logFailure
deriving Repr, DecidableEq

/-- Observable outcome of fully consuming one `chat_stream` generator:
the fragments yielded to the caller, the instance state afterwards, and
the exception (if any) the generator raised. -/
structure StreamResult where
  emitted : List String
  state : ChatbotState
  err : Option StreamErr
deriving Repr, DecidableEq

/-- The generator `LangChainChatbot.chat_stream` (src/chatbot.py lines
163-224). `docs` are the documents the retriever returns (line 182);
`frags` are the `chunk.content` values produced by `self.llm.stream`
before it either finishes or (when `genFails` is true) raises. With a
chain, the full response is accumulated while streaming; only on
successful completion is the turn appended to `self.chat_history`
(lines 215-220) and, when logging is enabled, logged (lines 222-224).
Without a chain (lines 173-176) the fragments are only yielded; the
state is never touched. -/
def chat_stream (cap : Nat) (hasChain enable_logging : Bool) (st : ChatbotState)
    (question : String) (docs : List Document) (frags : List String)
    (genFails logFails : Bool) : StreamResult :=
  if hasChain then
    if genFails then { emitted := frags, state := st, err := some .genFailure }
    else
      let full_response := String.join frags
      let hist := pushTurn cap st.chat_history (question, full_response)
      if enable_logging then
        if logFails then
          { emitted := frags, state := { st with chat_history := hist },
            err := some .logFailure }
        else
          { emitted := frags,
            state := { chat_history := hist,
                       log := st.log ++ [mkLogRecord question full_response docs] },
            err := none }
      else
        { emitted := frags, state := { st with chat_history := hist }, err := none }
  else
    { emitted := frags, state := st,
      err := if genFails then some .genFailure else none }

/-- The method `LangChainChatbot.clear_memory` (src/chatbot.py lines
259-264): reset `self.chat_history` to the empty list; the written log is
not touched. -/
def clear_memory (st : ChatbotState) : ChatbotState :=
  { st with chat_history := [] }

/-- The method `LangChainChatbot.get_chat_history` (src/chatbot.py lines
275-287): alternating "User: q" / "name: a" lines, oldest first. -/
def get_chat_history (chatbot_name : String) (st : ChatbotState) : List String :=
  st.chat_history.foldr
    (fun qa acc =>
      (String.append "User: " qa.1) :: (String.append (String.append chatbot_name ": ") qa.2) :: acc)
    []

/-- One public operation on a `LangChainChatbot` instance, with the
behaviour of the external providers recorded in the constructor fields. -/
inductive ChatOp where
  | opChat (hasChain enable_logging : Bool) (question : String)
      (provider : Except Unit (String × List Document)) (logFails : Bool)
  | opStream (hasChain enable_logging : Bool) (question : String)
      (docs : List Document) (frags : List String) (genFails logFails : Bool)
  | opClear
deriving Repr

/-- Effect of one operation on the instance state. -/
def stepOp (cap : Nat) (op : ChatOp) (st : ChatbotState) : ChatbotState :=
  match op with
  | .opChat hasChain enable_logging question provider logFails =>
      (chat cap hasChain enable_logging st question provider logFails).2
  | .opStream hasChain enable_logging question docs frags genFails logFails =>
      (chat_stream cap hasChain enable_logging st question docs frags genFails logFails).state
  | .opClear => clear_memory st

/-- Run a sequence of operations from a given state. -/
def runOps (cap : Nat) : List ChatOp → ChatbotState → ChatbotState
  | [], st => st
  | op :: rest, st => runOps cap rest (stepOp cap op st)

/-- Run a sequence of operations on a freshly constructed chatbot
(empty history, src/chatbot.py line 55, and nothing logged yet), with the
configured capacity `MAX_CONVERSATION_HISTORY`. -/
def runChatbot (ops : List ChatOp) : ChatbotState :=
  runOps MAX_CONVERSATION_HISTORY ops { chat_history := [], log := [] }

/-! ### Vector store (src/vector_store.py) -/

/-- Inner product of two rational vectors (cosine similarity on normalized
embeddings, as the spec describes the scoring of the index). -/
def dotProd : List ℚ → List ℚ → ℚ
  | a :: as, b :: bs => a * b + dotProd as bs
  | _, _ => 0

/-- One index entry: a stored chunk together with its embedding vector. -/
abbrev IndexEntry := Document × List ℚ

/-- Ordering of scored results: the earlier result has the larger (or
equal) similarity score. -/
def scoreGe (a b : Document × ℚ) : Prop := b.2 ≤ a.2

instance : DecidableRel scoreGe := fun a b =>
  inferInstanceAs (Decidable (b.2 ≤ a.2))

instance : IsTotal (Document × ℚ) scoreGe := ⟨fun a b => le_total b.2 a.2⟩

instance : IsTrans (Document × ℚ) scoreGe :=
  ⟨fun _ _ _ h1 h2 => le_trans h2 h1⟩

/-- Modelled from the spec: the FAISS index search
(`FAISS.similarity_search_with_score`, library code not in src, called at
src/vector_store.py line 156). Per the spec it embeds the query with the
index's provider and returns up to `k` entries ordered by descending
similarity (inner product on normalized vectors), ties broken by a stable
order (insertion order). -/
def faissSearch (embed : String → List ℚ) (entries : List IndexEntry)
    (query : String) (k : Nat) : List (Document × ℚ) :=
  let qv := embed query
  let scored := entries.map (fun e => (e.1, dotProd qv e.2))
  (scored.insertionSort scoreGe).take k

/-- Instance state of `LangChainVectorStore` (src/vector_store.py line 26):
`self.vectorstore` is `None` until created or loaded. The FAISS object is
modelled by its list of entries. The embedding provider of the instance is
passed explicitly where the Python methods use `self.embeddings`. -/
structure LangChainVectorStore where
  vectorstore : Option (List IndexEntry)
deriving Repr, DecidableEq

/-- The method `LangChainVectorStore.create_vectorstore` (src/vector_store.py
lines 37-58): raises `ValueError` on an empty document list, otherwise
builds a fresh FAISS store from the documents (`FAISS.from_documents`,
modelled from the spec as one embedding per chunk) and stores it on the
instance. Returns the new instance state with the created store. -/
def create_vectorstore (embed : String → List ℚ) (_st : LangChainVectorStore)
    (documents : List Document) : Except Unit LangChainVectorStore :=
  if documents.isEmpty then .error ()
  else .ok { vectorstore := some (documents.map (fun d => (d, embed d.page_content))) }

/-- The method `LangChainVectorStore.add_documents` (src/vector_store.py
lines 60-71): raises `ValueError` when `self.vectorstore is None`,
otherwise appends one entry per document. -/
def add_documents (embed : String → List ℚ) (st : LangChainVectorStore)
    (documents : List Document) : Except Unit LangChainVectorStore :=
  match st.vectorstore with
  | none => .error ()
  | some entries =>
      .ok { vectorstore := some (entries ++ documents.map (fun d => (d, embed d.page_content))) }

/-- The method `LangChainVectorStore.similarity_search_with_score`
(src/vector_store.py lines 142-156): raises `ValueError` when
`self.vectorstore is None`, otherwise delegates to the FAISS search. -/
def similarity_search_with_score (embed : String → List ℚ)
    (st : LangChainVectorStore) (query : String) (k : Nat) :
    Except Unit (List (Document × ℚ)) :=
  match st.vectorstore with
  | none => .error ()
  | some entries => .ok (faissSearch embed entries query k)

/-- The method `LangChainVectorStore.similarity_search` (src/vector_store.py
lines 126-140): raises `ValueError` when `self.vectorstore is None`,
otherwise returns the documents of the FAISS search. -/
def similarity_search (embed : String → List ℚ)
    (st : LangChainVectorStore) (query : String) (k : Nat) :
    Except Unit (List Document) :=
  match st.vectorstore with
  | none => .error ()
  | some entries => .ok ((faissSearch embed entries query k).map Prod.fst)

/-- Serialized on-disk form of an index: per entry the chunk text, its
metadata and its embedding vector, flattened to plain tuples
(modelled from the spec: `save` persists the full set of entries plus
enough structure to reproduce identical search results). -/
abbrev SavedStore := List (String × String × List ℚ)

/-- Serialization used by `FAISS.save_local` (modelled from the spec):
flatten each entry to (text, metadata, vector). -/
def serializeEntries (entries : List IndexEntry) : SavedStore :=
  entries.map (fun e => (e.1.page_content, e.1.metadata, e.2))

/-- Deserialization used by `FAISS.load_local` (modelled from the spec):
rebuild each entry from its tuple. -/
def deserializeEntries (data : SavedStore) : List IndexEntry :=
  data.map (fun t => ({ page_content := t.1, metadata := t.2.1 }, t.2.2))

/-- Content found at a path: nothing, an unreadable/corrupt serialized
store, or a readable serialized store. -/
inductive FileContent where
  | missing
  | corrupt
  | good (data : SavedStore)
deriving Repr

/-- A file system keyed by path. -/
abbrev FS := String → FileContent

/-- The method `LangChainVectorStore.save` (src/vector_store.py lines
73-87): raises `ValueError` when there is no store, otherwise writes the
serialized store at `path` (`FAISS.save_local`, modelled from the spec).
Returns the updated file system. -/
def save (fs : FS) (st : LangChainVectorStore) (path : String) : Except Unit FS :=
  match st.vectorstore with
  | none => .error ()
  | some entries =>
      .ok (fun p => if p = path then .good (serializeEntries entries) else fs p)

/-- The call `FAISS.load_local` inside `LangChainVectorStore.load`
(modelled from the spec: library code not in src): deserializes a readable
store and raises on a corrupt one. The missing-path case is already
filtered out by the caller's `os.path.exists` check. -/
def faissLoadLocal : FileContent → Except Unit (List IndexEntry)
  | .missing => .error ()
  | .corrupt => .error ()
  | .good data => .ok (deserializeEntries data)

/-- The method `LangChainVectorStore.load` (src/vector_store.py lines
89-115): if the path does not exist, return `False`; otherwise try
`FAISS.load_local`, assigning the result to `self.vectorstore` and
returning `True` on success, and catching any exception and returning
`False` on failure. The instance state is unchanged whenever the result
is `False`. -/
def load (fs : FS) (st : LangChainVectorStore) (path : String) :
    Bool × LangChainVectorStore :=
  match fs path with
  | .missing => (false, st)
  | content =>
      match faissLoadLocal content with
      | .ok entries => (true, { vectorstore := some entries })
      | .error _ => (false, st)

/-! ### Data loader (src/data_loader.py) -/

/-- Python `x or d` on an optional integer argument: `None` and `0` are
falsy, so both select the default `d` (src/data_loader.py lines 27-29). -/
def pyOrInt (x : Option Int) (d : Int) : Int :=
  match x with
  | none => d
  | some v => if v = 0 then d else v

/-- Modelled from the spec: parameter validation of the text splitter
constructor (langchain's `RecursiveCharacterTextSplitter`, library code not
in src, called at src/data_loader.py lines 32-37). Per the spec, parameters
violating `0 ≤ overlap < chunk_size` are a configuration error reported to
the caller. -/
def validateChunkParams (chunk_size chunk_overlap : Int) : Except String Unit :=
  if 0 ≤ chunk_overlap ∧ chunk_overlap < chunk_size then .ok ()
  else .error "invalid chunk parameters"

/-- Chunking configuration held by a constructed `LangChainDataLoader`. -/
structure LangChainDataLoader where
  chunk_size : Int
  chunk_overlap : Int
deriving Repr, DecidableEq

/-- The constructor `LangChainDataLoader.__init__` (src/data_loader.py
lines 18-37): each parameter defaults through Python `or` to the module
constants, then the resulting values are handed to the text splitter
constructor, whose validation is modelled from the spec. -/
def dataLoaderInit (chunk_size chunk_overlap : Option Int) :
    Except String LangChainDataLoader :=
  let s := pyOrInt chunk_size CHUNK_SIZE
  let o := pyOrInt chunk_overlap CHUNK_OVERLAP
  match validateChunkParams s o with
  | .ok _ => .ok { chunk_size := s, chunk_overlap := o }
  | .error e => .error e

/-- Modelled from the spec: the splitting algorithm of
`RecursiveCharacterTextSplitter.split_documents` (library code not in src,
called at src/data_loader.py line 127). Per the spec (sections 4.1 and 8),
each produced chunk has length at most `s` and consecutive chunks overlap
in exactly `o` characters, so a text longer than `s` yields a first chunk
of `s` characters and the rest restarts `o` characters before its end.
The middle branch is unreachable when `o < s`; it only makes the recursion
total outside that precondition. -/
def splitChars (s o : Nat) (t : List Char) : List (List Char) :=
  if t.length ≤ s then [t]
  else if s - o = 0 then [t]
  else t.take s :: splitChars s o (t.drop (s - o))
termination_by t.length
decreasing_by
  simp only [List.length_drop]
  omega

/-- Concatenate chunks in order, removing the declared overlap `o` from
every chunk after the first. -/
def reconstructChunks (o : Nat) : List (List Char) → List Char
  | [] => []
  | c :: rest => c ++ (rest.map (List.drop o)).flatten

/-! ### Lemmas about the history update -/

/-- With a positive capacity and a history within capacity, `pushTurn`
either plain-appends (below capacity) or evicts exactly the oldest turn
(at capacity). -/
theorem pushTurn_eq_of_le {cap : Nat} (hcap : 0 < cap)
    {h : List (String × String)} (hl : h.length ≤ cap) (t : String × String) :
    pushTurn cap h t =
      if h.length < cap then h ++ [t] else h.drop 1 ++ [t] := by
  by_cases hlt : h.length < cap
  · have h1 : ¬ cap < (h ++ [t]).length := by
      simp only [List.length_append, List.length_cons, List.length_nil]
      omega
    rw [pushTurn, if_neg h1, if_pos hlt]
  · have h1 : cap < (h ++ [t]).length := by
      simp only [List.length_append, List.length_cons, List.length_nil]
      omega
    have h2 : (h ++ [t]).length - cap = 1 := by
      simp only [List.length_append, List.length_cons, List.length_nil]
      omega
    rw [pushTurn, if_pos h1, pySliceLast, if_neg (by omega : ¬ cap = 0), h2,
      List.drop_append_of_le_length (by omega), if_neg hlt]

/-- pushTurn keeps the history within a positive capacity. -/
theorem pushTurn_length_le {cap : Nat} (hcap : 0 < cap)
    {h : List (String × String)} (hl : h.length ≤ cap) (t : String × String) :
    (pushTurn cap h t).length ≤ cap := by
  rw [pushTurn_eq_of_le hcap hl]
  by_cases hlt : h.length < cap
  · rw [if_pos hlt]
    simp only [List.length_append, List.length_cons, List.length_nil]
    omega
  · rw [if_neg hlt]
    simp only [List.length_append, List.length_cons, List.length_nil, List.length_drop]
    omega

/-- The state after `chat` has a history within a positive capacity when
the state before does. -/
theorem chat_history_le {cap : Nat} (hcap : 0 < cap)
    (hasChain enable_logging : Bool) {st : ChatbotState}
    (hl : st.chat_history.length ≤ cap) (question : String)
    (provider : Except Unit (String × List Document)) (logFails : Bool) :
    ((chat cap hasChain enable_logging st question provider logFails).2).chat_history.length
      ≤ cap := by
  cases provider with
  | error e =>
      cases hasChain <;> simp [chat, hl]
  | ok p =>
      obtain ⟨answer, docs⟩ := p
      cases hasChain <;> cases enable_logging <;> cases logFails <;>
        simp [chat, hl, pushTurn_length_le hcap hl]

/-- The state after `chat_stream` has a history within a positive capacity
when the state before does. -/
theorem chat_stream_history_le {cap : Nat} (hcap : 0 < cap)
    (hasChain enable_logging : Bool) {st : ChatbotState}
    (hl : st.chat_history.length ≤ cap) (question : String)
    (docs : List Document) (frags : List String) (genFails logFails : Bool) :
    ((chat_stream cap hasChain enable_logging st question docs frags
        genFails logFails).state).chat_history.length ≤ cap := by
  cases hasChain <;> cases enable_logging <;> cases genFails <;> cases logFails <;>
    simp [chat_stream, hl, pushTurn_length_le hcap hl]

/-- Every single operation preserves the history bound. -/
theorem stepOp_history_le {cap : Nat} (hcap : 0 < cap) (op : ChatOp)
    {st : ChatbotState} (hl : st.chat_history.length ≤ cap) :
    ((stepOp cap op st).chat_history.length ≤ cap) := by
  cases op with
  | opChat hasChain enable_logging question provider logFails =>
      exact chat_history_le hcap hasChain enable_logging hl question provider logFails
  | opStream hasChain enable_logging question docs frags genFails logFails =>
      exact chat_stream_history_le hcap hasChain enable_logging hl question docs frags
        genFails logFails
  | opClear =>
      simp [stepOp, clear_memory]

/-- Running any operation sequence preserves the history bound. -/
theorem runOps_history_le {cap : Nat} (hcap : 0 < cap) (ops : List ChatOp) :
    ∀ st : ChatbotState, st.chat_history.length ≤ cap →
      (runOps cap ops st).chat_history.length ≤ cap := by
  induction ops with
  | nil => intro st hl; exact hl
  | cons op rest ih =>
      intro st hl
      exact ih (stepOp cap op st) (stepOp_history_le hcap op hl)

/-! ### Claim theorems: conversation engine -/

/-- C1: for every sequence of chat, chat_stream and clear_memory operations
on a freshly constructed chatbot, the conversation history length never
exceeds MAX_CONVERSATION_HISTORY; and appending a completed turn to any
reachable history plain-appends below capacity and, at capacity, evicts
exactly the oldest turn while keeping the remaining turns in order. -/
theorem C1_history_bounded_fifo :
    (∀ ops : List ChatOp,
        (runChatbot ops).chat_history.length ≤ MAX_CONVERSATION_HISTORY)
    ∧ (∀ (ops : List ChatOp) (q a : String),
        pushTurn MAX_CONVERSATION_HISTORY (runChatbot ops).chat_history (q, a) =
          if (runChatbot ops).chat_history.length < MAX_CONVERSATION_HISTORY
          then (runChatbot ops).chat_history ++ [(q, a)]
          else (runChatbot ops).chat_history.drop 1 ++ [(q, a)]) := by
  have hcap : 0 < MAX_CONVERSATION_HISTORY := by decide
  have hbound : ∀ ops : List ChatOp,
      (runChatbot ops).chat_history.length ≤ MAX_CONVERSATION_HISTORY := by
    intro ops
    exact runOps_history_le hcap ops { chat_history := [], log := [] } (by simp)
  exact ⟨hbound, fun ops q a => pushTurn_eq_of_le hcap (hbound ops) (q, a)⟩

/-- C2: if the generation provider raises during chat_stream, after any
number of already emitted fragments, no turn is appended: the instance
state after the failed call equals the state before it, and the failure
propagates to the caller. -/
theorem C2_stream_failure_leaves_history_unchanged
    (cap : Nat) (hasChain enable_logging : Bool) (st : ChatbotState)
    (question : String) (docs : List Document) (frags : List String)
    (logFails : Bool) :
    (chat_stream cap hasChain enable_logging st question docs frags true logFails).state = st
    ∧ (chat_stream cap hasChain enable_logging st question docs frags true logFails).err
        = some StreamErr.genFailure
    ∧ (chat_stream cap hasChain enable_logging st question docs frags true logFails).emitted
        = frags := by
  cases hasChain <;> simp [chat_stream]

/-- C3 counterexample: with retrieval disabled (self.chain is None), a
chat_stream turn that completes successfully (question "q", streamed
fragment "a", logging enabled) appends nothing to the conversation history
and emits no log record, refuting the claim for the retrieval-disabled
case. -/
theorem C3_counterexample_no_chain_stream_records_nothing :
    (chat_stream 5 false true { chat_history := [], log := [] } "q" [] ["a"]
        false false).err = none
    ∧ (chat_stream 5 false true { chat_history := [], log := [] } "q" [] ["a"]
        false false).state.chat_history = []
    ∧ (chat_stream 5 false true { chat_history := [], log := [] } "q" [] ["a"]
        false false).state.log = []
    ∧ ¬ ((chat_stream 5 false true { chat_history := [], log := [] } "q" [] ["a"]
          false false).state.chat_history = [("q", "a")]
        ∧ (chat_stream 5 false true { chat_history := [], log := [] } "q" [] ["a"]
          false false).state.log.length = 1) := by
  refine ⟨rfl, rfl, rfl, fun hcon => ?_⟩
  exact List.noConfusion hcon.1

/-- C3 amended: a chat_stream turn that completes successfully with
retrieval enabled appends (question, accumulated answer) to the history
and, with logging enabled, emits exactly one log record for the turn,
while yielding all fragments and raising nothing; with retrieval disabled
the fragments are yielded but the state is untouched. -/
theorem C3_amended_stream_success_records_turn
    (cap : Nat) (st : ChatbotState) (question : String)
    (docs : List Document) (frags : List String) :
    (chat_stream cap true true st question docs frags false false).state.chat_history
        = pushTurn cap st.chat_history (question, String.join frags)
    ∧ (chat_stream cap true true st question docs frags false false).state.log
        = st.log ++ [mkLogRecord question (String.join frags) docs]
    ∧ (chat_stream cap true true st question docs frags false false).emitted = frags
    ∧ (chat_stream cap true true st question docs frags false false).err = none
    ∧ (chat_stream cap false true st question docs frags false false).state = st := by
  simp [chat_stream]

/-- C4 counterexample: with logging enabled, a failing log write makes
chat raise (the answer is not returned to the caller) and makes
chat_stream end by raising, refuting the claim that logging exceptions
never propagate. -/
theorem C4_counterexample_log_failure_propagates :
    (chat 5 true true { chat_history := [], log := [] } "q"
        (Except.ok ("a", [])) true).1 = Except.error ()
    ∧ (chat_stream 5 true true { chat_history := [], log := [] } "q" [] ["a"]
        false true).err = some StreamErr.logFailure := by
  exact ⟨rfl, rfl⟩

/-- C4 amended: a failure while writing the conversation log record is not
swallowed: chat propagates the exception to the caller and does not return
the answer (the history update has already happened, the log is left
unchanged), and chat_stream propagates the exception after all answer
fragments have been yielded. -/
theorem C4_amended_log_failure_propagates
    (cap : Nat) (st : ChatbotState) (question answer : String)
    (docs rdocs : List Document) (frags : List String) :
    (chat cap true true st question (Except.ok (answer, docs)) true).1 = Except.error ()
    ∧ (chat cap true true st question (Except.ok (answer, docs)) true).2.chat_history
        = pushTurn cap st.chat_history (question, answer)
    ∧ (chat cap true true st question (Except.ok (answer, docs)) true).2.log = st.log
    ∧ (chat_stream cap true true st question rdocs frags false true).err
        = some StreamErr.logFailure
    ∧ (chat_stream cap true true st question rdocs frags false true).emitted = frags
    ∧ (chat_stream cap true true st question rdocs frags false true).state.log = st.log := by
  simp [chat, chat_stream]

/-! ### Lemmas about the chunker -/

/-- Every chunk the splitter produces has length at most the chunk size,
provided the overlap is below the chunk size. -/
theorem splitChars_length_le (s o : Nat) (ho : o < s) (t : List Char) :
    ∀ c ∈ splitChars s o t, c.length ≤ s := by
  have main : ∀ n (t : List Char), t.length ≤ n →
      ∀ c ∈ splitChars s o t, c.length ≤ s := by
    intro n
    induction n with
    | zero =>
        intro t ht c hc
        rw [splitChars] at hc
        have h1 : t.length ≤ s := by omega
        simp only [h1, if_true, List.mem_singleton] at hc
        subst hc
        exact h1
    | succ n ih =>
        intro t ht c hc
        rw [splitChars] at hc
        by_cases h1 : t.length ≤ s
        · simp only [h1, if_true, List.mem_singleton] at hc
          subst hc
          exact h1
        · have h2 : ¬ (s - o = 0) := by omega
          simp only [h1, h2, if_false, List.mem_cons] at hc
          rcases hc with hc | hc
          · subst hc
            simp only [List.length_take]
            omega
          · exact ih (t.drop (s - o)) (by simp only [List.length_drop]; omega) c hc
  exact main t.length t le_rfl

/-- Dropping the overlap from every chunk and flattening recovers the text
past its first `o` characters. -/
theorem splitChars_flatten_drop (s o : Nat) (ho : o < s) (t : List Char) :
    ((splitChars s o t).map (List.drop o)).flatten = t.drop o := by
  have main : ∀ n (t : List Char), t.length ≤ n →
      ((splitChars s o t).map (List.drop o)).flatten = t.drop o := by
    intro n
    induction n with
    | zero =>
        intro t ht
        rw [splitChars]
        have h1 : t.length ≤ s := by omega
        simp [h1]
    | succ n ih =>
        intro t ht
        rw [splitChars]
        by_cases h1 : t.length ≤ s
        · simp [h1]
        · have h2 : ¬ (s - o = 0) := by omega
          simp only [h1, h2, if_false, List.map_cons, List.flatten_cons]
          rw [ih (t.drop (s - o)) (by simp only [List.length_drop]; omega)]
          rw [List.drop_take, List.drop_drop, List.drop_take_append_drop']
  exact main t.length t le_rfl

/-- Concatenating the chunks while removing the declared overlap between
consecutive chunks reconstructs the original text exactly. -/
theorem splitChars_reconstruct (s o : Nat) (ho : o < s) (t : List Char) :
    reconstructChunks o (splitChars s o t) = t := by
  rw [splitChars]
  by_cases h1 : t.length ≤ s
  · simp [h1, reconstructChunks]
  · have h2 : ¬ (s - o = 0) := by omega
    simp only [h1, h2, if_false, reconstructChunks]
    rw [splitChars_flatten_drop s o ho]
    have h3 : (t.drop (s - o)).drop o = t.drop s := by
      rw [List.drop_drop]
      congr 1
      omega
    rw [h3, List.take_append_drop]

/-! ### Claim theorems: chunker -/

/-- C7: for every chunk size `s` and overlap `o` with `o < s` and every
document, the splitter produces chunks of length at most `s`, and
concatenating the chunks in order while removing the declared overlap
between consecutive chunks reconstructs the document exactly. -/
theorem C7_chunks_bounded_and_reconstruct (s o : Nat) (t : List Char)
    (ho : o < s) :
    (∀ c ∈ splitChars s o t, c.length ≤ s)
    ∧ reconstructChunks o (splitChars s o t) = t :=
  ⟨splitChars_length_le s o ho t, splitChars_reconstruct s o ho t⟩

/-- Witness for C7 at chunk size 3, overlap 1, document "abcdefg". -/
theorem C7_chunks_bounded_and_reconstruct_witness :
    1 < 3
    ∧ ((∀ c ∈ splitChars 3 1 "abcdefg".toList, c.length ≤ 3)
      ∧ reconstructChunks 1 (splitChars 3 1 "abcdefg".toList) = "abcdefg".toList) :=
  ⟨by decide, C7_chunks_bounded_and_reconstruct 3 1 "abcdefg".toList (by decide)⟩

/-! ### Claim theorems: data loader construction -/

/-- C8 counterexample: the explicit parameters chunk_size = 0 and
chunk_overlap = 0 violate the precondition 0 ≤ overlap < chunk_size, yet
constructing the loader reports no error: both values are Python-falsy and
are silently replaced by the defaults 500 and 50, and splitting would
proceed with those. -/
theorem C8_counterexample_zero_params_accepted :
    dataLoaderInit (some 0) (some 0)
        = Except.ok { chunk_size := 500, chunk_overlap := 50 }
    ∧ ¬ ((0 : Int) ≤ 0 ∧ (0 : Int) < 0) :=
  ⟨rfl, by decide⟩

/-- C8 amended: constructing the loader with parameters violating
0 ≤ overlap < chunk_size reports a configuration error to the caller,
except that a parameter passed as 0 is Python-falsy and is silently
replaced by the module default (chunk_size 500, overlap 50) before
validation. -/
theorem C8_amended_nonzero_invalid_params_rejected
    (s o : Int) (hs : s ≠ 0) (ho : o ≠ 0) (hbad : ¬ (0 ≤ o ∧ o < s)) :
    dataLoaderInit (some s) (some o) = Except.error "invalid chunk parameters" := by
  simp [dataLoaderInit, pyOrInt, hs, ho, validateChunkParams, hbad]

/-- Witness for C8 amended at chunk_size 5, overlap -1. -/
theorem C8_amended_nonzero_invalid_params_rejected_witness :
    (5 : Int) ≠ 0 ∧ (-1 : Int) ≠ 0 ∧ ¬ ((0 : Int) ≤ -1 ∧ (-1 : Int) < 5)
    ∧ dataLoaderInit (some 5) (some (-1))
        = Except.error "invalid chunk parameters" :=
  ⟨by decide, by decide, by decide,
    C8_amended_nonzero_invalid_params_rejected 5 (-1) (by decide) (by decide)
      (by decide)⟩

/-! ### Lemmas about the vector store -/

/-- Deserialization inverts serialization entry by entry. -/
theorem deserialize_serialize (entries : List IndexEntry) :
    deserializeEntries (serializeEntries entries) = entries := by
  induction entries with
  | nil => rfl
  | cons e rest ih =>
      obtain ⟨⟨content, meta⟩, vec⟩ := e
      simp only [serializeEntries, deserializeEntries, List.map_cons] at *
      exact congrArg _ ih

/-! ### Claim theorems: vector store -/

/-- C5: for every built index, query and k at least 1, the similarity
search succeeds and returns at most k results, ordered by non-increasing
similarity score, each referencing a chunk stored in the index; and when
the index holds at most k entries it returns exactly all of them. -/
theorem C5_search_topk (embed : String → List ℚ) (entries : List IndexEntry)
    (query : String) (k : Nat) (_hk : 1 ≤ k) :
    ∃ results,
      similarity_search_with_score embed { vectorstore := some entries } query k
        = Except.ok results
      ∧ results.length ≤ k
      ∧ (entries.length ≤ k → results.length = entries.length)
      ∧ results.Sorted scoreGe
      ∧ ∀ p ∈ results, p.1 ∈ entries.map Prod.fst := by
  refine ⟨faissSearch embed entries query k, rfl, ?_, ?_, ?_, ?_⟩
  · simp only [faissSearch, List.length_take]
    exact Nat.min_le_left _ _
  · intro hle
    simp only [faissSearch, List.length_take, List.length_insertionSort,
      List.length_map]
    omega
  · exact (List.sorted_insertionSort scoreGe _).sublist (List.take_sublist _ _)
  · intro p hp
    have hp2 : p ∈ (entries.map
        (fun e => (e.1, dotProd (embed query) e.2))).insertionSort scoreGe :=
      List.take_subset _ _ hp
    have hp3 := (List.mem_insertionSort scoreGe).mp hp2
    rcases List.mem_map.mp hp3 with ⟨e, he, hpe⟩
    subst hpe
    exact List.mem_map_of_mem Prod.fst he


/-- Three-entry example index used by the search witness. -/
def exampleEntries : List IndexEntry :=
  [({ page_content := "a", metadata := "m" }, [1]),
   ({ page_content := "b", metadata := "m" }, [2]),
   ({ page_content := "c", metadata := "m" }, [3])]

/-- Constant example embedding provider used by the search witness. -/
def exampleEmbed : String → List ℚ := fun _ => [1]

/-- Witness for C5: an index of three chunks queried with k = 5 returns
all three results, in non-increasing score order. -/
theorem C5_search_topk_witness :
    1 ≤ 5 ∧
    ∃ results,
      similarity_search_with_score exampleEmbed
          { vectorstore := some exampleEntries } "q" 5 = Except.ok results
      ∧ results.length ≤ 5
      ∧ (exampleEntries.length ≤ 5 → results.length = exampleEntries.length)
      ∧ results.Sorted scoreGe
      ∧ ∀ p ∈ results, p.1 ∈ exampleEntries.map Prod.fst :=
  ⟨by decide, C5_search_topk exampleEmbed exampleEntries "q" 5 (by decide)⟩

/-- Loading a missing path reports failure and leaves the instance alone
(src/vector_store.py lines 101-103). -/
theorem load_missing {fs : FS} {path : String} (st : LangChainVectorStore)
    (hfp : fs path = FileContent.missing) : load fs st path = (false, st) := by
  unfold load
  rw [hfp]

/-- Loading a corrupt path reports failure and leaves the instance alone
(the except branch, src/vector_store.py lines 113-115). -/
theorem load_corrupt {fs : FS} {path : String} (st : LangChainVectorStore)
    (hfp : fs path = FileContent.corrupt) : load fs st path = (false, st) := by
  unfold load
  rw [hfp]
  rfl

/-- Loading a readable path succeeds and installs the deserialized
entries (src/vector_store.py lines 105-112). -/
theorem load_good {fs : FS} {path : String} (st : LangChainVectorStore)
    {data : SavedStore} (hfp : fs path = FileContent.good data) :
    load fs st path = (true, { vectorstore := some (deserializeEntries data) }) := by
  unfold load
  rw [hfp]
  rfl

/-- C6: saving a built index at a path and loading that path into a fresh
instance succeeds and yields identical similarity search output (same
chunks, same scores, same order) for every query and every k. -/
theorem C6_save_load_roundtrip (fs : FS) (entries : List IndexEntry)
    (path : String) (embed : String → List ℚ) (query : String) (k : Nat) :
    ∃ fs2,
      save fs { vectorstore := some entries } path = Except.ok fs2
      ∧ (load fs2 { vectorstore := none } path).1 = true
      ∧ similarity_search_with_score embed
            (load fs2 { vectorstore := none } path).2 query k
          = similarity_search_with_score embed { vectorstore := some entries }
              query k := by
  refine ⟨fun p => if p = path then FileContent.good (serializeEntries entries)
    else fs p, rfl, ?_, ?_⟩
  · rw [load_good { vectorstore := none } (if_pos rfl)]
  · rw [load_good { vectorstore := none } (if_pos rfl)]
    rw [deserialize_serialize]

/-- C9: using the vector store before the required initialization fails
with an error: creating from an empty document list raises, adding
documents before a store exists raises, and both similarity searches with
no initialized store raise rather than returning an empty result list. -/
theorem C9_use_before_init_errors (embed : String → List ℚ)
    (st : LangChainVectorStore) (documents : List Document)
    (query : String) (k : Nat) :
    create_vectorstore embed st [] = Except.error ()
    ∧ add_documents embed { vectorstore := none } documents = Except.error ()
    ∧ similarity_search_with_score embed { vectorstore := none } query k
        = Except.error ()
    ∧ similarity_search embed { vectorstore := none } query k
        = Except.error () :=
  ⟨rfl, rfl, rfl, rfl⟩

/-- C10: load of a missing or corrupt path returns False and leaves the
instance unchanged (no exception reaches the caller), and it returns True
exactly when the persisted store was readable, in which case the restored
entries are installed. -/
theorem C10_load_failure_indicator (fs : FS) (st : LangChainVectorStore)
    (path : String) :
    ((load fs st path).1 = true ↔ ∃ data, fs path = FileContent.good data)
    ∧ ((load fs st path).1 = false → (load fs st path).2 = st)
    ∧ (∀ data, fs path = FileContent.good data →
        load fs st path
          = (true, { vectorstore := some (deserializeEntries data) })) := by
  cases hfp : fs path with
  | missing =>
      rw [load_missing st hfp]
      simp [hfp]
  | corrupt =>
      rw [load_corrupt st hfp]
      simp [hfp]
  | good data =>
      rw [load_good st hfp]
      simp [hfp]

/-- Example file system used by the load witness: one readable store, one
corrupt file, everything else missing. -/
def exampleFS : FS := fun p =>
  if p = "good" then FileContent.good [("c", "m", [1])]
  else if p = "bad" then FileContent.corrupt
  else FileContent.missing

/-- Witness for C10: loading a missing path reports failure and leaves
the fresh instance unchanged; loading the readable path succeeds and
installs the persisted entries. -/
theorem C10_load_failure_indicator_witness :
    (load exampleFS { vectorstore := none } "absent").2 = { vectorstore := none }
    ∧ load exampleFS { vectorstore := none } "good"
        = (true, { vectorstore := some (deserializeEntries [("c", "m", [1])]) }) :=
  ⟨(C10_load_failure_indicator exampleFS { vectorstore := none } "absent").2.1 rfl,
   (C10_load_failure_indicator exampleFS { vectorstore := none } "good").2.2
     [("c", "m", [1])] rfl⟩
